import Mathlib

/-!
Verification of the nsdbg launcher (src/nsdbg.py): environment assembly for
the Wine and Proton compatibility layers, game resolution through Steam
metadata, the EA-Desktop companion-app lifecycle, the debugger cache, and the
orchestrator's teardown decision.  Python dictionaries are modelled as
association lists, pathlib paths as component lists, and the process table as
a list of process names.
-/

namespace NsDbg

/-- A process environment: a Python `dict` from variable names to values,
modelled as an association list with at most one binding per key reachable
by lookup. -/
abbrev Env := List (String × String)

/-- `d.get(k)`: the value bound to `k`, or `None`. -/
def Env.get : Env → String → Option String
  | [], _ => none
  | (k0, v) :: rest, k => if k0 = k then some v else Env.get rest k

/-- `d[k] = v`: rebind `k` in place, or add the binding when absent. -/
def Env.set : Env → String → String → Env
  | [], k, v => [(k, v)]
  | (k0, v0) :: rest, k, v =>
    if k0 = k then (k0, v) :: rest else (k0, v0) :: Env.set rest k v

/-- `d.setdefault(k, v)`: insert `v` under `k` only when `k` is unbound. -/
def Env.setdefault (e : Env) (k v : String) : Env :=
  match Env.get e k with
  | some _ => e
  | none => Env.set e k v

/-- Python truthiness of an optional string: `None` and `""` are falsy. -/
def truthy : Option String → Bool
  | none => false
  | some s => !s.isEmpty

/-- `prepend_args(x, y, delim)` from nsdbg.py: `(y + delim + x) if y else x`. -/
def prepend_args (x : String) (y : Option String) (delim : String) : String :=
  if truthy y then (y.getD "") ++ delim ++ x else x

/-- `append_args(x, y, delim)` from nsdbg.py: `(x + delim + y) if y else x`. -/
def append_args (x : String) (y : Option String) (delim : String) : String :=
  if truthy y then x ++ delim ++ (y.getD "") else x

/-- `TITANFALL2_APPID` from nsdbg.py. -/
def TITANFALL2_APPID : Nat := 1237970

/-- A spawned child process: the command line and the environment passed to
`subprocess.Popen`. -/
structure Popen where
  cmd : List String
  env : Env
  deriving DecidableEq, Repr

/-- The environment mutations of `CompatWine.run` (nsdbg.py lines 158-175),
applied to the copy `env_vars = dict(os.environ)`. -/
def wineRunEnv (environ : Env) : Env :=
  let env_vars := environ
  let env_vars := Env.setdefault env_vars "TERM" "xterm"
  let env_vars := Env.setdefault env_vars "WINEDEBUG" "-all"
  let env_vars := Env.set env_vars "WINEDLLOVERRIDES"
    (append_args "wsock32=n" (Env.get env_vars "WINEDLLOVERRIDES") ";")
  let env_vars := Env.setdefault env_vars "DXVK_LOG_LEVEL" "none"
  let env_vars := Env.setdefault env_vars "VKD3D_DEBUG" "none"
  let env_vars := Env.setdefault env_vars "VKD3D_SHADER_DEBUG" "none"
  env_vars

/-- `CompatWine.run`: spawns `wine` with the given arguments under the
merged environment. -/
def CompatWine.run (args : List String) (environ : Env) : Popen :=
  { cmd := "wine" :: args, env := wineRunEnv environ }

/-- A `pathlib.Path`, as its list of components below the filesystem root. -/
abbrev PyPath := List String

/-- `Path.name`: the final component (empty for the root). -/
def PyPath.name (p : PyPath) : String := p.getLast?.getD ""

/-- `(p / "..").resolve()` for an absolute, symlink-free path: the parent
directory. -/
def PyPath.parentResolve (p : PyPath) : PyPath := p.dropLast

/-- Rendering a path the way an f-string or `os.path.join` sees it. -/
def PyPath.str (p : PyPath) : String := "/" ++ String.intercalate "/" p

/-- One entry of the Steam metadata reported by the Protontricks
collaborator. -/
structure SteamApp where
  appid : Nat
  install_path : String
  prefix_path : Option PyPath
  deriving DecidableEq, Repr

/-- The Steam metadata consulted by nsdbg: the library paths returned by
`get_steam_lib_paths` and the apps returned by `get_steam_apps`. -/
structure SteamSource where
  lib_paths : List String
  apps : List SteamApp
  deriving DecidableEq, Repr

/-- The linear search of `Game.__find_titanfall2_steam` (nsdbg.py lines
97-101): first app whose appid is `TITANFALL2_APPID`, else `None`. -/
def findApp : List SteamApp → Option String
  | [] => none
  | a :: rest =>
    if a.appid = TITANFALL2_APPID then some a.install_path else findApp rest

/-- `Game.__find_titanfall2_steam`: raises when the library or app
enumeration is empty, otherwise returns the linear-search result (which is
`None` when the appid is absent). -/
def find_titanfall2_steam (s : SteamSource) : Except String (Option String) :=
  if s.lib_paths.isEmpty then Except.error "Could not find Steam libraries"
  else if s.apps.isEmpty then Except.error "Could not find any steam apps"
  else Except.ok (findApp s.apps)

/-- `Game.find_titanfall2`: the `TF2_GAME_DIR` override when truthy, else
the Steam lookup. -/
def find_titanfall2 (tf2_game_dir : Option String) (s : SteamSource) :
    Except String (Option String) :=
  if truthy tf2_game_dir then Except.ok tf2_game_dir
  else find_titanfall2_steam s

/-- The compatdir selection of `CompatProton.__init__` (nsdbg.py lines
264-267): first app with the Titanfall 2 appid and a prefix path. -/
def protonFindCompatdir : List SteamApp → Option PyPath
  | [] => none
  | a :: rest =>
    if a.appid = TITANFALL2_APPID ∧ a.prefix_path.isSome then a.prefix_path
    else protonFindCompatdir rest

/-- The compatdir normalisation of `CompatProton.__init__` (nsdbg.py lines
269-273): fail when no prefix was found; strip a trailing `pfx` component. -/
def protonInitCompatdir (apps : List SteamApp) : Except String PyPath :=
  match protonFindCompatdir apps with
  | none => Except.error "Failed to find Titanfall 2 prefix"
  | some d =>
    Except.ok (if PyPath.name d = "pfx" then PyPath.parentResolve d else d)

/-- The configuration snapshot a constructed `CompatProton` carries into
`run`. -/
structure ProtonCtx where
  steam_path : String
  compatdir : PyPath
  compattool : String
  game_dir : String
  deriving DecidableEq, Repr

/-- `CompatProton.__get_wineprefix`: `os.path.join(self.compatdir, "pfx")`. -/
def ProtonCtx.winePfx (c : ProtonCtx) : String :=
  PyPath.str c.compatdir ++ "/pfx"

/-- The environment mutations of `CompatProton.run` (nsdbg.py lines
285-320), applied to the copy `env_vars = dict(os.environ)`. -/
def protonRunEnv (c : ProtonCtx) (environ : Env) : Env :=
  let env_vars := environ
  let env_vars := Env.setdefault env_vars "TERM" "xterm"
  let env_vars := Env.setdefault env_vars "SteamGameId" (toString TITANFALL2_APPID)
  let env_vars := Env.setdefault env_vars "SteamAppId" (toString TITANFALL2_APPID)
  let env_vars := Env.setdefault env_vars "STEAM_COMPAT_CLIENT_INSTALL_PATH" c.steam_path
  let env_vars := Env.setdefault env_vars "WINELOADAERNOEXEC" "1"
  let env_vars := Env.set env_vars "PATH"
    (append_args (c.compattool ++ "/files/bin") (Env.get env_vars "PATH") ":")
  let env_vars := Env.setdefault env_vars "WINEDEBUG" "-all"
  let env_vars := Env.set env_vars "WINEDLLPATH"
    (prepend_args (c.compattool ++ "/files/lib64/wine:" ++ c.compattool ++ "/files/lib/wine")
      (Env.get env_vars "WINEDLLPATH") ":")
  let env_vars := Env.setdefault env_vars "LD_LIBRARY_PATH"
    (append_args (c.compattool ++ "/files/lib64/:" ++ c.compattool ++ "/files/lib/:" ++ c.game_dir)
      (Env.get env_vars "LD_LIBRARY_PATH") ":")
  let env_vars := Env.setdefault env_vars "WINEPREFIX" (ProtonCtx.winePfx c)
  let env_vars := Env.setdefault env_vars "WINEESYNC" "1"
  let env_vars := Env.setdefault env_vars "WINEFSYNC" "1"
  let env_vars := Env.set env_vars "WINEDLLOVERRIDES"
    (append_args "wsock32=n,b;steam.exe=b;dotnetfx35.exe=b;dotnetfx35setup.exe=b;beclient.dll=b,n;beclient_x64.dll=b,n;d3d11=n;d3d10core=n;d3d9=n;dxgi=n;d3d12=n;d3d12core=n"
      (Env.get env_vars "WINEDLLOVERRIDES") ";")
  let env_vars := Env.setdefault env_vars "WINE_LARGE_ADDRESS_AWARE" "1"
  let env_vars := Env.set env_vars "GST_PLUGIN_SYSTEM_PATH_1_0"
    (prepend_args (c.compattool ++ "/files/lib64/gstreamer-1.0:" ++ c.compattool ++ "/files/lib/gstreamer-1.0")
      (Env.get env_vars "GST_PLUGIN_SYSTEM_PATH_1_0") ":")
  let env_vars := Env.setdefault env_vars "WINE_GST_REGISTRY_DIR"
    (PyPath.str c.compatdir ++ "/gstreamer-1.0/")
  let env_vars := Env.setdefault env_vars "DXVK_LOG_LEVEL" "none"
  let env_vars := Env.setdefault env_vars "VKD3D_DEBUG" "none"
  let env_vars := Env.setdefault env_vars "VKD3D_SHADER_DEBUG" "none"
  env_vars

/-- `CompatProton.run`: spawns the Proton-provided `wine` under the merged
environment. -/
def ProtonCtx.run (c : ProtonCtx) (args : List String) (environ : Env) : Popen :=
  { cmd := (c.compattool ++ "/files/bin/wine") :: args, env := protonRunEnv c environ }

/-- `possible_names` of `CompatBase.is_ea_running`. -/
def possible_names : List String := ["EADesktop.exe", "EABackgroundSer"]

/-- `CompatBase.is_ea_running` over a process table given as the list of
process names: `any(p.name() for p in ... if p.name() in possible_names)`. -/
def is_ea_running (procs : List String) : Bool :=
  (procs.filter (fun n => possible_names.contains n)).any (fun n => !n.isEmpty)

/-- `CompatBase.maybe_start_ea`: skip (return `None`) when the EA app is
already observable, else delegate to the variant's `start_ea` (whose result
is the `started` handle). -/
def maybe_start_ea (procs : List String) (started : Option Nat) : Option Nat :=
  if is_ea_running procs then none else started

/-- One pass of the body of `wait_for_ea`'s loop as it acts on `counter`:
the body never increments it. -/
def waitCounterStep (counter : Nat) : Nat := counter

/-- A fuel-bounded execution of `CompatBase.wait_for_ea`'s loop (nsdbg.py
lines 135-144).  `running i` is what `is_ea_running` reports at the `i`-th
check; the result is `true` when the function has returned within `fuel`
iterations (either by seeing the process or by the guard failing) and
`false` when it is still looping. -/
def waitForEaLoop (running : Nat → Bool) (attempts : Nat) :
    Nat → Nat → Nat → Bool
  | _, _, 0 => false
  | counter, i, fuel + 1 =>
    if counter < attempts then
      if running i then true
      else waitForEaLoop running attempts (waitCounterStep counter) (i + 1) fuel
    else true

/-- `wait_for_ea(attempts)` entered with `counter = 0` at the first check. -/
def wait_for_ea (running : Nat → Bool) (attempts fuel : Nat) : Bool :=
  waitForEaLoop running attempts 0 0 fuel

/-- `CACHE_DIR`-relative path of the cached debugger executable
(`DebuggerX64DBG.__init__`). -/
def x64dbgExe : String := "cache/x64dbg/release/x64/x64dbg.exe"

/-- `DebuggerX64DBG.__init__` acting on the set of existing files: when the
executable is cached nothing happens, otherwise one download plus an
`extractall` of the archive members into `cache/x64dbg`.  Returns the new
file set and the number of `urlopen` calls. -/
def dbgInit (files : List String) (archive : List String) :
    List String × Nat :=
  if files.contains x64dbgExe then (files, 0)
  else (files ++ archive.map (fun m => "cache/x64dbg/" ++ m), 1)

/-- The observable steps of `CompatWine.start_ea`. -/
inductive WineStartEvent
  | winetricksInstall (verb : String)
  | runInstaller
  | launchEa
  deriving DecidableEq, Repr

/-- `CompatWine.start_ea` (nsdbg.py lines 226-246) as a function of the
prefix install state: `before` is `__ea_installed()` on entry and
`afterInstall` is `__ea_installed()` after the installer run.  Returns the
events performed and either the launch result or the raised error. -/
def wine_start_ea (before afterInstall : Bool) :
    List WineStartEvent × Except String Unit :=
  if before then ([WineStartEvent.launchEa], Except.ok ())
  else
    let evs := [WineStartEvent.winetricksInstall "d3dcompiler_47",
      WineStartEvent.runInstaller]
    if afterInstall then (evs ++ [WineStartEvent.launchEa], Except.ok ())
    else (evs, Except.error "Failed to install EA Desktop")

/-- The teardown decision of `main` (nsdbg.py lines 411-421): `ea` stays
`None` when `--no-ea` was given, else it is `maybe_start_ea`'s result; the
process group is killed iff `not persist_ea and ea`. -/
def mainTeardown (no_ea persist_ea : Bool) (procs : List String)
    (started : Nat) : Option Nat × Bool :=
  let ea := if no_ea then none else maybe_start_ea procs (some started)
  (ea, !persist_ea && ea.isSome)

/-! ### A small heap of dictionaries

`run` mutates `env_vars`, a dict obtained by `dict(os.environ)`.  To state
that `os.environ` itself is untouched we model dict references explicitly:
a heap is a list of environments and a reference is an index into it. -/

/-- The dictionaries live in a heap; `os.environ` is one of them. -/
structure PyHeap where
  dicts : List Env
  deriving Repr

/-- Read the dictionary a reference denotes. -/
def PyHeap.read (s : PyHeap) (r : Nat) : Env := (s.dicts[r]?).getD []

/-- `dict(d)`: allocate a fresh copy, returning the new heap and the fresh
reference. -/
def PyHeap.copy (s : PyHeap) (r : Nat) : PyHeap × Nat :=
  ({ dicts := s.dicts ++ [s.read r] }, s.dicts.length)

/-- `d[k] = v` through a reference. -/
def PyHeap.setKey (s : PyHeap) (r : Nat) (k v : String) : PyHeap :=
  { dicts := s.dicts.set r (Env.set (s.read r) k v) }

/-- `d.setdefault(k, v)` through a reference. -/
def PyHeap.setdefaultKey (s : PyHeap) (r : Nat) (k v : String) : PyHeap :=
  { dicts := s.dicts.set r (Env.setdefault (s.read r) k v) }

/-- `CompatWine.run`'s environment construction as the heap program the
Python executes: copy `os.environ` (at reference `r`), then mutate the
copy in place.  Returns the final heap and the reference passed to
`subprocess.Popen` as `env`. -/
def wineRunHeap (s : PyHeap) (r : Nat) : PyHeap × Nat :=
  let (s, ev) := PyHeap.copy s r
  let s := PyHeap.setdefaultKey s ev "TERM" "xterm"
  let s := PyHeap.setdefaultKey s ev "WINEDEBUG" "-all"
  let s := PyHeap.setKey s ev "WINEDLLOVERRIDES"
    (append_args "wsock32=n" (Env.get (PyHeap.read s ev) "WINEDLLOVERRIDES") ";")
  let s := PyHeap.setdefaultKey s ev "DXVK_LOG_LEVEL" "none"
  let s := PyHeap.setdefaultKey s ev "VKD3D_DEBUG" "none"
  let s := PyHeap.setdefaultKey s ev "VKD3D_SHADER_DEBUG" "none"
  (s, ev)

/-- `CompatProton.run`'s environment construction as the same kind of heap
program. -/
def protonRunHeap (c : ProtonCtx) (s : PyHeap) (r : Nat) : PyHeap × Nat :=
  let (s, ev) := PyHeap.copy s r
  let s := PyHeap.setdefaultKey s ev "TERM" "xterm"
  let s := PyHeap.setdefaultKey s ev "SteamGameId" (toString TITANFALL2_APPID)
  let s := PyHeap.setdefaultKey s ev "SteamAppId" (toString TITANFALL2_APPID)
  let s := PyHeap.setdefaultKey s ev "STEAM_COMPAT_CLIENT_INSTALL_PATH" c.steam_path
  let s := PyHeap.setdefaultKey s ev "WINELOADAERNOEXEC" "1"
  let s := PyHeap.setKey s ev "PATH"
    (append_args (c.compattool ++ "/files/bin") (Env.get (PyHeap.read s ev) "PATH") ":")
  let s := PyHeap.setdefaultKey s ev "WINEDEBUG" "-all"
  let s := PyHeap.setKey s ev "WINEDLLPATH"
    (prepend_args (c.compattool ++ "/files/lib64/wine:" ++ c.compattool ++ "/files/lib/wine")
      (Env.get (PyHeap.read s ev) "WINEDLLPATH") ":")
  let s := PyHeap.setdefaultKey s ev "LD_LIBRARY_PATH"
    (append_args (c.compattool ++ "/files/lib64/:" ++ c.compattool ++ "/files/lib/:" ++ c.game_dir)
      (Env.get (PyHeap.read s ev) "LD_LIBRARY_PATH") ":")
  let s := PyHeap.setdefaultKey s ev "WINEPREFIX" (ProtonCtx.winePfx c)
  let s := PyHeap.setdefaultKey s ev "WINEESYNC" "1"
  let s := PyHeap.setdefaultKey s ev "WINEFSYNC" "1"
  let s := PyHeap.setKey s ev "WINEDLLOVERRIDES"
    (append_args "wsock32=n,b;steam.exe=b;dotnetfx35.exe=b;dotnetfx35setup.exe=b;beclient.dll=b,n;beclient_x64.dll=b,n;d3d11=n;d3d10core=n;d3d9=n;dxgi=n;d3d12=n;d3d12core=n"
      (Env.get (PyHeap.read s ev) "WINEDLLOVERRIDES") ";")
  let s := PyHeap.setdefaultKey s ev "WINE_LARGE_ADDRESS_AWARE" "1"
  let s := PyHeap.setKey s ev "GST_PLUGIN_SYSTEM_PATH_1_0"
    (prepend_args (c.compattool ++ "/files/lib64/gstreamer-1.0:" ++ c.compattool ++ "/files/lib/gstreamer-1.0")
      (Env.get (PyHeap.read s ev) "GST_PLUGIN_SYSTEM_PATH_1_0") ":")
  let s := PyHeap.setdefaultKey s ev "WINE_GST_REGISTRY_DIR"
    (PyPath.str c.compatdir ++ "/gstreamer-1.0/")
  let s := PyHeap.setdefaultKey s ev "DXVK_LOG_LEVEL" "none"
  let s := PyHeap.setdefaultKey s ev "VKD3D_DEBUG" "none"
  let s := PyHeap.setdefaultKey s ev "VKD3D_SHADER_DEBUG" "none"
  (s, ev)

/-! ### Concrete inputs used by counterexamples and witnesses -/

/-- A prior process environment in which `LD_LIBRARY_PATH` is already set. -/
def ldPresetEnv : Env := [("LD_LIBRARY_PATH", "/usr/lib")]

/-- A concrete Proton configuration snapshot. -/
def protonCtxA : ProtonCtx :=
  { steam_path := "/steam", compatdir := ["home", "c"], compattool := "/ct",
    game_dir := "/game" }

/-- Steam metadata with libraries and apps but no entry for appid 1237970. -/
def steamNoTF2 : SteamSource :=
  { lib_paths := ["/lib"],
    apps := [{ appid := 42, install_path := "/other", prefix_path := none }] }

/-- Steam metadata reporting a Titanfall 2 prefix path whose last two
components are both `pfx`. -/
def appsDoublePfx : List SteamApp :=
  [{ appid := TITANFALL2_APPID, install_path := "/tf2",
     prefix_path := some ["home", "pfx", "pfx"] }]

/-- A Proton snapshot whose stored compatdir is the `/home/pfx` that the
double-`pfx` metadata produces. -/
def protonCtxPfx : ProtonCtx :=
  { steam_path := "/s", compatdir := ["home", "pfx"], compattool := "/ct",
    game_dir := "/g" }

/-! ### Dictionary lemmas -/

theorem Env.get_set_self (e : Env) (k v : String) :
    Env.get (Env.set e k v) k = some v := by
  induction e with
  | nil => simp [Env.set, Env.get]
  | cons hd tl ih =>
    by_cases h : hd.1 = k
    · simp [Env.set, Env.get, h]
    · simp [Env.set, Env.get, h, ih]

theorem Env.get_set_ne (e : Env) {k k' : String} (v : String) (h : k ≠ k') :
    Env.get (Env.set e k v) k' = Env.get e k' := by
  induction e with
  | nil => simp [Env.set, Env.get, h]
  | cons hd tl ih =>
    by_cases h0 : hd.1 = k
    · simp [Env.set, Env.get, h0, h]
    · simp [Env.set, Env.get, h0, ih]

theorem Env.setdefault_of_isSome (e : Env) (k v : String)
    (h : (Env.get e k).isSome) : Env.setdefault e k v = e := by
  unfold Env.setdefault
  cases h0 : Env.get e k with
  | none => rw [h0] at h; simp at h
  | some w => rfl

theorem Env.get_setdefault_self (e : Env) (k v : String) :
    Env.get (Env.setdefault e k v) k = some ((Env.get e k).getD v) := by
  unfold Env.setdefault
  cases h0 : Env.get e k with
  | none => simp [Env.get_set_self]
  | some w => simp [h0]

theorem Env.get_setdefault_ne (e : Env) {k k' : String} (v : String)
    (h : k ≠ k') :
    Env.get (Env.setdefault e k v) k' = Env.get e k' := by
  unfold Env.setdefault
  cases h0 : Env.get e k with
  | none => simp [Env.get_set_ne _ _ h]
  | some w => rfl

/-! ### Heap lemmas -/

theorem PyHeap.length_setKey (s : PyHeap) (r : Nat) (k v : String) :
    (PyHeap.setKey s r k v).dicts.length = s.dicts.length := by
  simp [PyHeap.setKey]

theorem PyHeap.length_setdefaultKey (s : PyHeap) (r : Nat) (k v : String) :
    (PyHeap.setdefaultKey s r k v).dicts.length = s.dicts.length := by
  simp [PyHeap.setdefaultKey]

theorem PyHeap.read_setKey_ne (s : PyHeap) {r i : Nat} (k v : String)
    (h : i ≠ r) : (PyHeap.setKey s r k v).read i = s.read i := by
  simp [PyHeap.setKey, PyHeap.read, List.getElem?_set_ne (Ne.symm h)]

theorem PyHeap.read_setKey_self (s : PyHeap) {r : Nat} (k v : String)
    (h : r < s.dicts.length) :
    (PyHeap.setKey s r k v).read r = Env.set (s.read r) k v := by
  simp [PyHeap.setKey, PyHeap.read, List.getElem?_set_eq_of_lt _ h]

theorem PyHeap.read_setdefaultKey_ne (s : PyHeap) {r i : Nat} (k v : String)
    (h : i ≠ r) : (PyHeap.setdefaultKey s r k v).read i = s.read i := by
  simp [PyHeap.setdefaultKey, PyHeap.read, List.getElem?_set_ne (Ne.symm h)]

theorem PyHeap.read_setdefaultKey_self (s : PyHeap) {r : Nat} (k v : String)
    (h : r < s.dicts.length) :
    (PyHeap.setdefaultKey s r k v).read r = Env.setdefault (s.read r) k v := by
  simp [PyHeap.setdefaultKey, PyHeap.read, List.getElem?_set_eq_of_lt _ h]

theorem PyHeap.length_mk_append (l : List Env) (e : Env) :
    (PyHeap.mk (l ++ [e])).dicts.length = l.length + 1 := by simp

theorem PyHeap.read_mk_append_lt (l : List Env) (e : Env) {i : Nat}
    (h : i < l.length) : PyHeap.read ⟨l ++ [e]⟩ i = PyHeap.read ⟨l⟩ i := by
  simp [PyHeap.read, List.getElem?_append_left h]

theorem PyHeap.read_mk_append_len (l : List Env) (e : Env) :
    PyHeap.read ⟨l ++ [e]⟩ l.length = e := by
  simp [PyHeap.read]

/-! ### Search lemmas for the Steam app list -/

theorem findApp_eq_none (l : List SteamApp)
    (h : ∀ a ∈ l, a.appid ≠ TITANFALL2_APPID) : findApp l = none := by
  induction l with
  | nil => rfl
  | cons a rest ih =>
    have ha := h a (List.mem_cons_self a rest)
    simp only [findApp, if_neg ha]
    exact ih fun b hb => h b (List.mem_cons_of_mem a hb)

theorem findApp_of_mem (l : List SteamApp) (a : SteamApp) (ha : a ∈ l)
    (h : a.appid = TITANFALL2_APPID) :
    ∃ a' ∈ l, a'.appid = TITANFALL2_APPID ∧
      findApp l = some a'.install_path := by
  induction l with
  | nil => cases ha
  | cons b rest ih =>
    by_cases hb : b.appid = TITANFALL2_APPID
    · exact ⟨b, List.mem_cons_self b rest, hb, by simp [findApp, hb]⟩
    · rcases List.mem_cons.mp ha with rfl | ha'
      · exact absurd h hb
      · rcases ih ha' with ⟨a', ha', h1, h2⟩
        exact ⟨a', List.mem_cons_of_mem b ha', h1, by simp [findApp, hb, h2]⟩

/-! ### Claim theorems -/

/-- C1: In both `CompatWine.run` and `CompatProton.run`, every already-set
variable of the set-if-absent category (`TERM`, `WINEDEBUG`,
`DXVK_LOG_LEVEL`, `VKD3D_DEBUG`, `VKD3D_SHADER_DEBUG`, and for Proton also
`SteamGameId`, `SteamAppId`, `WINEESYNC`, `WINEFSYNC`,
`WINE_LARGE_ADDRESS_AWARE`) keeps its prior value in the child environment,
while every forced-override variable (`WINEDLLOVERRIDES`, and for Proton
`PATH`, `WINEDLLPATH`, `GST_PLUGIN_SYSTEM_PATH_1_0`) is always rewritten
with the value merged from the prior one, whatever the prior environment. -/
theorem run_env_policy (env : Env) (c : ProtonCtx) :
    (((Env.get env "TERM").isSome →
        Env.get (wineRunEnv env) "TERM" = Env.get env "TERM")
      ∧ ((Env.get env "WINEDEBUG").isSome →
        Env.get (wineRunEnv env) "WINEDEBUG" = Env.get env "WINEDEBUG")
      ∧ ((Env.get env "DXVK_LOG_LEVEL").isSome →
        Env.get (wineRunEnv env) "DXVK_LOG_LEVEL" = Env.get env "DXVK_LOG_LEVEL")
      ∧ ((Env.get env "VKD3D_DEBUG").isSome →
        Env.get (wineRunEnv env) "VKD3D_DEBUG" = Env.get env "VKD3D_DEBUG")
      ∧ ((Env.get env "VKD3D_SHADER_DEBUG").isSome →
        Env.get (wineRunEnv env) "VKD3D_SHADER_DEBUG" = Env.get env "VKD3D_SHADER_DEBUG")
      ∧ Env.get (wineRunEnv env) "WINEDLLOVERRIDES" =
          some (append_args "wsock32=n" (Env.get env "WINEDLLOVERRIDES") ";"))
    ∧ (((Env.get env "TERM").isSome →
        Env.get (protonRunEnv c env) "TERM" = Env.get env "TERM")
      ∧ ((Env.get env "SteamGameId").isSome →
        Env.get (protonRunEnv c env) "SteamGameId" = Env.get env "SteamGameId")
      ∧ ((Env.get env "SteamAppId").isSome →
        Env.get (protonRunEnv c env) "SteamAppId" = Env.get env "SteamAppId")
      ∧ ((Env.get env "WINEDEBUG").isSome →
        Env.get (protonRunEnv c env) "WINEDEBUG" = Env.get env "WINEDEBUG")
      ∧ ((Env.get env "WINEESYNC").isSome →
        Env.get (protonRunEnv c env) "WINEESYNC" = Env.get env "WINEESYNC")
      ∧ ((Env.get env "WINEFSYNC").isSome →
        Env.get (protonRunEnv c env) "WINEFSYNC" = Env.get env "WINEFSYNC")
      ∧ ((Env.get env "WINE_LARGE_ADDRESS_AWARE").isSome →
        Env.get (protonRunEnv c env) "WINE_LARGE_ADDRESS_AWARE" =
          Env.get env "WINE_LARGE_ADDRESS_AWARE")
      ∧ ((Env.get env "DXVK_LOG_LEVEL").isSome →
        Env.get (protonRunEnv c env) "DXVK_LOG_LEVEL" = Env.get env "DXVK_LOG_LEVEL")
      ∧ ((Env.get env "VKD3D_DEBUG").isSome →
        Env.get (protonRunEnv c env) "VKD3D_DEBUG" = Env.get env "VKD3D_DEBUG")
      ∧ ((Env.get env "VKD3D_SHADER_DEBUG").isSome →
        Env.get (protonRunEnv c env) "VKD3D_SHADER_DEBUG" =
          Env.get env "VKD3D_SHADER_DEBUG")
      ∧ Env.get (protonRunEnv c env) "PATH" =
          some (append_args (c.compattool ++ "/files/bin") (Env.get env "PATH") ":")
      ∧ Env.get (protonRunEnv c env) "WINEDLLPATH" =
          some (prepend_args
            (c.compattool ++ "/files/lib64/wine:" ++ c.compattool ++ "/files/lib/wine")
            (Env.get env "WINEDLLPATH") ":")
      ∧ Env.get (protonRunEnv c env) "WINEDLLOVERRIDES" =
          some (append_args "wsock32=n,b;steam.exe=b;dotnetfx35.exe=b;dotnetfx35setup.exe=b;beclient.dll=b,n;beclient_x64.dll=b,n;d3d11=n;d3d10core=n;d3d9=n;dxgi=n;d3d12=n;d3d12core=n"
            (Env.get env "WINEDLLOVERRIDES") ";")
      ∧ Env.get (protonRunEnv c env) "GST_PLUGIN_SYSTEM_PATH_1_0" =
          some (prepend_args
            (c.compattool ++ "/files/lib64/gstreamer-1.0:" ++ c.compattool ++ "/files/lib/gstreamer-1.0")
            (Env.get env "GST_PLUGIN_SYSTEM_PATH_1_0") ":")) := by
  refine ⟨⟨?_, ?_, ?_, ?_, ?_, ?_⟩, ?_, ?_, ?_, ?_, ?_, ?_, ?_, ?_, ?_, ?_, ?_, ?_, ?_, ?_⟩ <;>
    first
    | (intro hs
       rcases Option.isSome_iff_exists.mp hs with ⟨w, hw⟩
       simp [wineRunEnv, protonRunEnv, Env.get_setdefault_ne, Env.get_set_ne,
         Env.get_setdefault_self, Env.get_set_self, hw])
    | simp [wineRunEnv, protonRunEnv, Env.get_setdefault_ne, Env.get_set_ne,
        Env.get_setdefault_self, Env.get_set_self]

/-- Witness for C1: with `TERM` preset to `screen`, the Wine child
environment keeps `TERM = screen`. -/
theorem run_env_policy_witness :
    Env.get (wineRunEnv [("TERM", "screen")]) "TERM" =
      Env.get [("TERM", "screen")] "TERM" :=
  (run_env_policy [("TERM", "screen")]
    { steam_path := "/s", compatdir := ["h"], compattool := "/ct", game_dir := "/g" }).1.1
    (by decide)

/-- C2 (failing evaluation): with `LD_LIBRARY_PATH` already set, the child
environment built by `CompatProton.run` keeps exactly the prior value; the
Proton library directories and the game directory are never merged in,
because nsdbg.py line 299 hands the `append_args` merge to `setdefault`,
which discards it whenever the key is present.  The second conjunct shows
the merge the spec requires, and the third that the actual value differs
from it. -/
theorem proton_ld_library_path_not_merged :
    Env.get (protonRunEnv protonCtxA ldPresetEnv) "LD_LIBRARY_PATH" =
      some "/usr/lib"
  ∧ append_args
      (protonCtxA.compattool ++ "/files/lib64/:" ++ protonCtxA.compattool ++
        "/files/lib/:" ++ protonCtxA.game_dir)
      (Env.get ldPresetEnv "LD_LIBRARY_PATH") ":"
      = "/ct/files/lib64/:/ct/files/lib/:/game:/usr/lib"
  ∧ ("/usr/lib" : String) ≠
      "/ct/files/lib64/:/ct/files/lib/:/game:/usr/lib" :=
  ⟨by decide, by decide, by decide⟩

/-- C3 (failing evaluation): when the EA process never appears,
`wait_for_ea` with its default 10 attempts has still not returned after any
number of loop iterations: the loop body never increments `counter`
(nsdbg.py lines 135-142), so the guard `counter < attempts` stays true
forever and the poll never times out. -/
theorem wait_for_ea_never_returns (fuel : Nat) :
    wait_for_ea (fun _ => false) 10 fuel = false := by
  have h : ∀ f i, waitForEaLoop (fun _ => false) 10 0 i f = false := by
    intro f
    induction f with
    | zero => intro i; rfl
    | succ n ih =>
      intro i
      simpa [waitForEaLoop, waitCounterStep] using ih (i + 1)
  exact h fuel 0

/-- C4 counterexample: with no override and Steam metadata that enumerates
libraries and apps but has no app with appid 1237970, `find_titanfall2`
returns successfully with `None` (the Python function falls off the search
loop and returns `None`) instead of failing. -/
theorem find_titanfall2_absent_not_error :
    find_titanfall2 none steamNoTF2 = Except.ok none := by
  simp [find_titanfall2, truthy, find_titanfall2_steam, steamNoTF2, findApp,
    TITANFALL2_APPID]

/-- C4 amended: with a non-empty `TF2_GAME_DIR` override the locator
returns it unchanged whatever the Steam metadata holds (so the metadata is
never consulted); with no override, empty library or app enumeration
raises; with libraries and apps present but the target appid absent, the
locator returns `None` without raising; with an app carrying the target
appid present, it returns the install path of such an app. -/
theorem find_titanfall2_contract (gd : String) (s : SteamSource) :
    (gd ≠ "" → find_titanfall2 (some gd) s = Except.ok (some gd))
  ∧ (s.lib_paths = [] →
      find_titanfall2 none s = Except.error "Could not find Steam libraries")
  ∧ (s.lib_paths ≠ [] → s.apps = [] →
      find_titanfall2 none s = Except.error "Could not find any steam apps")
  ∧ (s.lib_paths ≠ [] → (∀ a ∈ s.apps, a.appid ≠ TITANFALL2_APPID) →
      s.apps ≠ [] → find_titanfall2 none s = Except.ok none)
  ∧ (s.lib_paths ≠ [] → ∀ a ∈ s.apps, a.appid = TITANFALL2_APPID →
      ∃ a' ∈ s.apps, a'.appid = TITANFALL2_APPID ∧
        find_titanfall2 none s = Except.ok (some a'.install_path)) := by
  refine ⟨?_, ?_, ?_, ?_, ?_⟩
  · intro h
    have he : gd.isEmpty = false := by
      simp only [← Bool.not_eq_true, String.isEmpty_iff]
      exact h
    simp [find_titanfall2, truthy, he]
  · intro h
    simp [find_titanfall2, truthy, find_titanfall2_steam, h]
  · intro h1 h2
    simp [find_titanfall2, truthy, find_titanfall2_steam, h1, h2]
  · intro h1 h2 h3
    simp [find_titanfall2, truthy, find_titanfall2_steam, h1, h3,
      findApp_eq_none s.apps h2]
  · intro h1 a ha hid
    rcases findApp_of_mem s.apps a ha hid with ⟨a', ha', hid', hfind⟩
    refine ⟨a', ha', hid', ?_⟩
    have hne : s.apps ≠ [] := by
      intro h0; rw [h0] at ha; cases ha
    simp [find_titanfall2, truthy, find_titanfall2_steam, h1, hne, hfind]

/-- Witness for C4 (amended): a non-empty override is returned unchanged
even against metadata that lacks the game. -/
theorem find_titanfall2_contract_witness :
    find_titanfall2 (some "/tf2") steamNoTF2 = Except.ok (some "/tf2") :=
  (find_titanfall2_contract "/tf2" steamNoTF2).1 (by decide)

/-- C5: `maybe_start_ea` spawns nothing and returns no handle exactly when
a process named `EADesktop.exe` or `EABackgroundSer` is observable in the
process table, and otherwise delegates to the variant's `start_ea` (whose
result is `started`). -/
theorem maybe_start_ea_spec (procs : List String) (started : Option Nat) :
    (is_ea_running procs = true ↔ ∃ n ∈ procs, n ∈ possible_names)
  ∧ (is_ea_running procs = true → maybe_start_ea procs started = none)
  ∧ (is_ea_running procs = false → maybe_start_ea procs started = started) := by
  refine ⟨?_, ?_, ?_⟩
  · unfold is_ea_running
    rw [List.any_eq_true]
    constructor
    · rintro ⟨n, hn, _⟩
      rw [List.mem_filter] at hn
      exact ⟨n, hn.1, by simpa using hn.2⟩
    · rintro ⟨n, hn, hmem⟩
      refine ⟨n, List.mem_filter.mpr ⟨hn, by simpa using hmem⟩, ?_⟩
      have : n = "EADesktop.exe" ∨ n = "EABackgroundSer" := by
        simpa [possible_names] using hmem
      rcases this with rfl | rfl <;> decide
  · intro h
    simp [maybe_start_ea, h]
  · intro h
    simp [maybe_start_ea, h]

/-- Witness for C5: with `EADesktop.exe` in the process table nothing is
started and no handle is returned. -/
theorem maybe_start_ea_spec_witness :
    maybe_start_ea ["EADesktop.exe"] (some 7) = none :=
  (maybe_start_ea_spec ["EADesktop.exe"] (some 7)).2.1 (by decide)

/-- C6: after the debugger exits, `main` kills the companion app's process
group iff `--persist-ea` was not given and a companion-app handle exists;
when the EA app was already running nothing was started, so no teardown
happens. -/
theorem main_teardown_spec (no_ea persist_ea : Bool) (procs : List String)
    (started : Nat) :
    ((mainTeardown no_ea persist_ea procs started).2 = true ↔
      persist_ea = false ∧
        ((mainTeardown no_ea persist_ea procs started).1).isSome = true)
  ∧ (is_ea_running procs = true →
      (mainTeardown no_ea persist_ea procs started).2 = false) := by
  cases hr : is_ea_running procs <;> cases no_ea <;> cases persist_ea <;>
    simp [mainTeardown, maybe_start_ea, hr]

/-- Witness for C6: EA already running, no flags set: no teardown. -/
theorem main_teardown_spec_witness :
    (mainTeardown false false ["EADesktop.exe"] 3).2 = false :=
  (main_teardown_spec false false ["EADesktop.exe"] 3).2 (by decide)

/-- C7: at `DebuggerX64DBG` construction, a cached
`cache/x64dbg/release/x64/x64dbg.exe` means no download happens and the
file set is untouched; an absent executable means exactly one
download-and-extract cycle, after which the executable is present provided
the fetched archive carries the `release/x64/x64dbg.exe` member. -/
theorem dbg_cache_spec (files archive : List String) :
    (files.contains x64dbgExe = true → dbgInit files archive = (files, 0))
  ∧ (files.contains x64dbgExe = false →
      (dbgInit files archive).2 = 1
      ∧ ("release/x64/x64dbg.exe" ∈ archive →
          x64dbgExe ∈ (dbgInit files archive).1)) := by
  refine ⟨?_, ?_⟩
  · intro h
    have h' : x64dbgExe ∈ files := by simpa using h
    simp [dbgInit, h']
  · intro h
    have h' : x64dbgExe ∉ files := by simpa using h
    refine ⟨by simp [dbgInit, h'], ?_⟩
    intro hm
    simp only [dbgInit, h, Bool.false_eq_true, if_false, List.mem_append,
      List.mem_map]
    right
    exact ⟨"release/x64/x64dbg.exe", hm, rfl⟩

/-- Witness for C7: an empty cache plus the release archive yields one
download and the cached executable. -/
theorem dbg_cache_spec_witness :
    (dbgInit [] ["release/x64/x64dbg.exe"]).2 = 1 ∧
      x64dbgExe ∈ (dbgInit [] ["release/x64/x64dbg.exe"]).1 := by
  have h := (dbg_cache_spec [] ["release/x64/x64dbg.exe"]).2 (by decide)
  exact ⟨h.1, h.2 (by decide)⟩

/-- C8: `CompatWine.start_ea` with the EA app already installed just
launches it; with it absent it installs `d3dcompiler_47` through
winetricks, runs the bundled installer, and raises exactly when the app is
still absent afterwards, otherwise launching the app and returning
normally. -/
theorem wine_start_ea_spec (before afterInstall : Bool) :
    ((wine_start_ea before afterInstall).2 =
        Except.error "Failed to install EA Desktop" ↔
      before = false ∧ afterInstall = false)
  ∧ (before = true →
      wine_start_ea before afterInstall =
        ([WineStartEvent.launchEa], Except.ok ()))
  ∧ (before = false →
      (wine_start_ea before afterInstall).1.take 2 =
        [WineStartEvent.winetricksInstall "d3dcompiler_47",
          WineStartEvent.runInstaller]
      ∧ (afterInstall = true →
          wine_start_ea before afterInstall =
            ([WineStartEvent.winetricksInstall "d3dcompiler_47",
              WineStartEvent.runInstaller, WineStartEvent.launchEa],
              Except.ok ()))) := by
  cases before <;> cases afterInstall <;> simp [wine_start_ea]

/-- Witness for C8: not installed before and still not installed after the
installer run raises the fatal error. -/
theorem wine_start_ea_spec_witness :
    (wine_start_ea false false).2 =
      Except.error "Failed to install EA Desktop" :=
  (wine_start_ea_spec false false).1.mpr ⟨rfl, rfl⟩

/-- C9: both `run` variants mutate only the fresh `dict(os.environ)` copy:
for every heap and every valid reference `r` to `os.environ`, after the
environment construction the dictionary at `r` is unchanged, and the
dictionary handed to `Popen` holds exactly the pure merge
(`wineRunEnv` resp. `protonRunEnv`) of the parent environment. -/
theorem run_preserves_environ (s : PyHeap) (r : Nat) (c : ProtonCtx)
    (h : r < s.dicts.length) :
    ((wineRunHeap s r).1.read r = s.read r
      ∧ (wineRunHeap s r).1.read (wineRunHeap s r).2 = wineRunEnv (s.read r))
  ∧ ((protonRunHeap c s r).1.read r = s.read r
      ∧ (protonRunHeap c s r).1.read (protonRunHeap c s r).2 =
          protonRunEnv c (s.read r)) := by
  have hne : r ≠ s.dicts.length := Nat.ne_of_lt h
  refine ⟨⟨?_, ?_⟩, ?_, ?_⟩ <;>
    simp [wineRunHeap, protonRunHeap, wineRunEnv, protonRunEnv, PyHeap.copy,
      PyHeap.read_setKey_ne, PyHeap.read_setKey_self,
      PyHeap.read_setdefaultKey_ne, PyHeap.read_setdefaultKey_self,
      PyHeap.length_setKey, PyHeap.length_setdefaultKey,
      PyHeap.length_mk_append, PyHeap.read_mk_append_lt,
      PyHeap.read_mk_append_len, hne, h, Nat.lt_succ_self, lt_add_one]

/-- Witness for C9: a one-dictionary heap holding `os.environ` is left
intact by the Wine run. -/
theorem run_preserves_environ_witness :
    (wineRunHeap ⟨[[("TERM", "screen")]]⟩ 0).1.read 0 = [("TERM", "screen")] := by
  have h := (run_preserves_environ ⟨[[("TERM", "screen")]]⟩ 0
    { steam_path := "/s", compatdir := ["h"], compattool := "/ct",
      game_dir := "/g" } (by decide)).1.1
  simpa [PyHeap.read] using h

/-- C10 counterexample: when Steam metadata reports the prefix path
`/home/pfx/pfx`, `CompatProton.__init__` stores `/home/pfx` — the stored
compatibility directory's final component is still `pfx`, so the claimed
invariant does not hold. -/
theorem proton_compatdir_pfx_counterexample :
    protonInitCompatdir appsDoublePfx = Except.ok ["home", "pfx"]
  ∧ PyPath.name ["home", "pfx"] = "pfx" :=
  ⟨rfl, rfl⟩

/-- C10 amended: construction strips exactly one trailing `pfx` component
from the reported prefix path (the parent is stored when the final
component is `pfx`, the path itself otherwise — so a reported path ending
in two `pfx` components leaves a stored directory still named `pfx`), and
every subsequent `run` derives its `WINEPREFIX` default as exactly the
stored directory joined with `pfx`, with no further Steam metadata input. -/
theorem proton_compatdir_spec (apps : List SteamApp) (d : PyPath)
    (h : protonInitCompatdir apps = Except.ok d) :
    (∃ p : PyPath, protonFindCompatdir apps = some p ∧
      d = if PyPath.name p = "pfx" then PyPath.parentResolve p else p)
  ∧ ∀ (c : ProtonCtx) (env : Env), c.compatdir = d →
      Env.get env "WINEPREFIX" = none →
      Env.get (protonRunEnv c env) "WINEPREFIX" =
        some (PyPath.str d ++ "/pfx") := by
  constructor
  · unfold protonInitCompatdir at h
    cases h0 : protonFindCompatdir apps with
    | none => rw [h0] at h; cases h
    | some p =>
      rw [h0] at h
      refine ⟨p, rfl, ?_⟩
      cases h
      rfl
  · intro c env hc hnone
    have : Env.get (protonRunEnv c env) "WINEPREFIX" =
        some (ProtonCtx.winePfx c) := by
      simp [protonRunEnv, Env.get_setdefault_ne, Env.get_set_ne,
        Env.get_setdefault_self, Env.get_set_self, hnone]
    rw [this, ProtonCtx.winePfx, hc]

/-- Witness for C10 (amended): from the double-`pfx` metadata, the stored
directory `/home/pfx` yields the run-time `WINEPREFIX` default
`/home/pfx/pfx`. -/
theorem proton_compatdir_spec_witness :
    Env.get (protonRunEnv protonCtxPfx []) "WINEPREFIX" =
      some "/home/pfx/pfx" := by
  have h := (proton_compatdir_spec appsDoublePfx ["home", "pfx"] rfl).2
    protonCtxPfx [] rfl rfl
  simpa [PyPath.str] using h

end NsDbg
